import Mathlib

/-!
Verification development for a three.js / TSL demo application.

The embedding models the scene-lifecycle core of the repository:
the `ThreeEngine` class (renderer negotiation in `initThree`, scene
switching in `switchToPlane` / `cleanupCurrentPlane`, the per-variant
`create*Plane` methods, and `resize`) together with the three TSL plane
classes `TSLPlaneSDF`, `TSLPlaneRaymarching` and `TSLPlaneDesertTank`.

Numeric uniform values are modelled as rationals; DOM event-listener
registrations are modelled as lists of (event type, handler id) pairs,
where a handler id identifies which closure/function was registered.
-/

namespace TSLLab

/-- A 2-component vector of rationals (models `THREE.Vector2`). -/
structure Vec2 where
  x : ℚ
  y : ℚ
deriving Repr, DecidableEq

/-- Plane geometry parameters (models `THREE.PlaneGeometry` construction
arguments: width, height, widthSegments, heightSegments). -/
structure PlaneGeometry where
  width : ℚ
  height : ℚ
  widthSegments : ℕ
  heightSegments : ℕ
deriving Repr, DecidableEq

/-- Modelled from the spec: the wave variant's `TSLPlane` class file is not
under src/ (only its construction site in `ThreeEngine.createWavePlane` is);
per the spec it owns a tessellated plane geometry created with it and
destroyed with it. Its geometry parameters come from the construction site. -/
structure TSLPlane where
  geometry : PlaneGeometry
deriving Repr, DecidableEq

/-- State of a `TSLPlaneSDF` object: its geometry and the two tunable
SDF uniforms created in `initMaterial` (`radiusUniform`, `fadeUniform`). -/
structure TSLPlaneSDF where
  geometry : PlaneGeometry
  radius : ℚ
  fade : ℚ
deriving Repr, DecidableEq

/-- Constructor of `TSLPlaneSDF`: destructured params with defaults
`width = 4`, `height = 2`, `widthSegments = 64`, `heightSegments = 32`;
`initMaterial` creates the uniforms with `radius = 0.25`, `fade = 1.5`.
Call sites that omit a parameter pass `none`. -/
def TSLPlaneSDF.new (width height : Option ℚ) (widthSegments heightSegments : Option ℕ) :
    TSLPlaneSDF :=
  { geometry :=
      { width := width.getD 4
        height := height.getD 2
        widthSegments := widthSegments.getD 64
        heightSegments := heightSegments.getD 32 }
    radius := 1/4
    fade := 3/2 }

/-- State of a `TSLPlaneRaymarching` object: geometry plus the uniforms
created in `initMaterial`. -/
structure TSLPlaneRaymarching where
  geometry : PlaneGeometry
  radius : ℚ
  fade : ℚ
  rayFrom : Vec2
  rayTo : Vec2
  maxSteps : ℚ
  surfaceDistance : ℚ
  maxDistance : ℚ
  timeMultiplier : ℚ
deriving Repr, DecidableEq

/-- Constructor of `TSLPlaneRaymarching`: destructured params with defaults
`width = 2`, `height = 2`, `widthSegments = 64`, `heightSegments = 64`;
`initMaterial` creates the uniforms with values `radius = 0.15`, `fade = 1`,
`rayFrom = (0.5, 0.5)`, `rayTo = (1, 1)`, `maxSteps = 20`,
`surfaceDistance = 0.0001`, `maxDistance = 5`, `timeMultiplier = 1`. -/
def TSLPlaneRaymarching.new (width height : Option ℚ) (widthSegments heightSegments : Option ℕ) :
    TSLPlaneRaymarching :=
  { geometry :=
      { width := width.getD 2
        height := height.getD 2
        widthSegments := widthSegments.getD 64
        heightSegments := heightSegments.getD 64 }
    radius := 3/20
    fade := 1
    rayFrom := ⟨1/2, 1/2⟩
    rayTo := ⟨1, 1⟩
    maxSteps := 20
    surfaceDistance := 1/10000
    maxDistance := 5
    timeMultiplier := 1 }

/-- State of a `TSLPlaneDesertTank` object: geometry plus the game-state
uniforms created in `initMaterial`. -/
structure TSLPlaneDesertTank where
  geometry : PlaneGeometry
  wheelOffset : Vec2
  bulletOffset : ℚ
  shellOffset : ℚ
deriving Repr, DecidableEq

/-- Constructor of `TSLPlaneDesertTank`: destructured params with defaults
`width = 2`, `height = 2`, `widthSegments = 64`, `heightSegments = 64`;
`initMaterial` creates the uniforms with `wheelOffset = (-10, 0)`,
`bulletOffset = 20`, `shellOffset = 25`. -/
def TSLPlaneDesertTank.new (width height : Option ℚ) (widthSegments heightSegments : Option ℕ) :
    TSLPlaneDesertTank :=
  { geometry :=
      { width := width.getD 2
        height := height.getD 2
        widthSegments := widthSegments.getD 64
        heightSegments := heightSegments.getD 64 }
    wheelOffset := ⟨-10, 0⟩
    bulletOffset := 20
    shellOffset := 25 }

/-- Handler id of the `onDocumentKey` closure that
`TSLPlaneDesertTank.initControls` registers on the document. -/
def onDocumentKeyId : ℕ := 0

/-- Handler id of the `TSLPlaneDesertTank.initControls` method itself, which
`TSLPlaneDesertTank.dispose` (incorrectly) passes to `removeEventListener`. -/
def initControlsMethodId : ℕ := 1

/-- Handler id of the `onPointerMove` closure registered by
`TSLPlaneRaymarching.setupMouseInteraction`. -/
def onPointerMoveId : ℕ := 2

/-- Handler id of the `onPointerDown` closure registered by
`TSLPlaneRaymarching.setupMouseInteraction`. -/
def onPointerDownId : ℕ := 3

/-- DOM `removeEventListener`: removes the registration whose event type and
handler function both match; a call naming a function that was never
registered removes nothing. -/
def removeEventListener (ls : List (String × ℕ)) (ty : String) (handler : ℕ) :
    List (String × ℕ) :=
  ls.filter (fun e => !(e.1 = ty && e.2 = handler))

/-- Observable lifecycle events emitted by the engine, in program order:
disposal of a plane (scene removal + `dispose()`), creation of a plane,
the `console.warn` for an unknown plane type, and the `console.error`
logged when a `create*Plane` try/catch catches a construction error. -/
inductive LifeEvent where
  | disposed (tag : String)
  | created (tag : String)
  | warnedUnknown (tag : String)
  | loggedError (tag : String)
deriving Repr, DecidableEq

/-- Uniforms of the (disused) test shader materials
(`shaderMaterial` / `shaderMaterialSimple`), touched by `resize`. -/
structure TestShaderMat where
  uTime : ℚ
  uResolution : Vec2
deriving Repr, DecidableEq

/-- State of a `ThreeEngine` instance: the four mutually exclusive plane
slots, the active-plane tag, listener registrations on the renderer's DOM
element and on the document, the camera/renderer state touched by `resize`,
the two optional test shader materials, an accumulated trace of lifecycle
events, and a flag recording an uncaught exception. -/
structure EngineState where
  tslPlane : Option TSLPlane
  tslPlaneSDF : Option TSLPlaneSDF
  tslDesertTank : Option TSLPlaneDesertTank
  raymarchPlane : Option TSLPlaneRaymarching
  currentActivePlane : String
  domListeners : List (String × ℕ)
  docListeners : List (String × ℕ)
  rendererReady : Bool
  cameraAspect : ℚ
  rendererSize : Vec2
  shaderMaterial : Option TestShaderMat
  shaderMaterialSimple : Option TestShaderMat
  trace : List LifeEvent
  crashed : Bool
deriving Repr, DecidableEq

/-- Field initializers of `ThreeEngine` after `initThree` ran: all plane
slots null, `currentActivePlane = "none"`, no plane-owned listeners, the
test shader materials never created (their init calls are commented out).
The camera aspect and renderer size take window-derived values; the claims
never observe them before a `resize`, so they are fixed here arbitrarily. -/
def initState : EngineState :=
  { tslPlane := none
    tslPlaneSDF := none
    tslDesertTank := none
    raymarchPlane := none
    currentActivePlane := "none"
    domListeners := []
    docListeners := []
    rendererReady := true
    cameraAspect := 1
    rendererSize := ⟨1, 1⟩
    shaderMaterial := none
    shaderMaterialSimple := none
    trace := []
    crashed := false }

/-- First block of `cleanupCurrentPlane`: if the wave plane slot is
occupied, remove its mesh from the scene, dispose it and null the slot. -/
def cleanupWave (s : EngineState) : EngineState :=
  match s.tslPlane with
  | some _ => { s with tslPlane := none, trace := s.trace ++ [LifeEvent.disposed "wave"] }
  | none => s

/-- Second block of `cleanupCurrentPlane`: the SDF plane slot. -/
def cleanupSDF (s : EngineState) : EngineState :=
  match s.tslPlaneSDF with
  | some _ => { s with tslPlaneSDF := none, trace := s.trace ++ [LifeEvent.disposed "sdf"] }
  | none => s

/-- Third block of `cleanupCurrentPlane`: the desert tank slot.
`TSLPlaneDesertTank.dispose` additionally calls
`document.removeEventListener("keydown"/"keyup", this.initControls)` —
naming the `initControls` method, not the `onDocumentKey` closure that was
actually registered. -/
def cleanupTank (s : EngineState) : EngineState :=
  match s.tslDesertTank with
  | some _ =>
      { s with
        tslDesertTank := none
        docListeners :=
          removeEventListener
            (removeEventListener s.docListeners "keydown" initControlsMethodId)
            "keyup" initControlsMethodId
        trace := s.trace ++ [LifeEvent.disposed "desert-tank"] }
  | none => s

/-- Fourth block of `cleanupCurrentPlane`: the raymarching slot.
`TSLPlaneRaymarching.dispose` disposes geometry and material only; it does
not touch the pointer listeners registered on the DOM element. -/
def cleanupRaymarch (s : EngineState) : EngineState :=
  match s.raymarchPlane with
  | some _ =>
      { s with raymarchPlane := none, trace := s.trace ++ [LifeEvent.disposed "raymarching"] }
  | none => s

/-- `ThreeEngine.cleanupCurrentPlane`: removes and disposes whichever of the
four plane slots are occupied, in source order. -/
def cleanupCurrentPlane (s : EngineState) : EngineState :=
  cleanupRaymarch (cleanupTank (cleanupSDF (cleanupWave s)))

/-- `ThreeEngine.createWavePlane`: constructs a `TSLPlane` with width 8,
height 8, 128 by 128 segments inside try/catch and adds its mesh to the
scene; on a construction error, logs it and leaves the slot null.
The `fail` flag models whether the construction throws. -/
def createWavePlane (s : EngineState) (fail : Bool) : EngineState :=
  if fail then
    { s with trace := s.trace ++ [LifeEvent.loggedError "wave"] }
  else
    { s with
      tslPlane := some { geometry := ⟨8, 8, 128, 128⟩ }
      trace := s.trace ++ [LifeEvent.created "wave"] }

/-- `ThreeEngine.createSDFPlane`: constructs a `TSLPlaneSDF` with width 8,
height 4 (segments left at their defaults) inside try/catch, then sets
`radius = 0.3` and `fade = 2.0` and adds the mesh to the scene; on a
construction error, logs it and leaves the slot null. -/
def createSDFPlane (s : EngineState) (fail : Bool) : EngineState :=
  if fail then
    { s with trace := s.trace ++ [LifeEvent.loggedError "sdf"] }
  else
    let plane := TSLPlaneSDF.new (some 8) (some 4) none none
    { s with
      tslPlaneSDF := some { plane with radius := 3/10, fade := 2 }
      trace := s.trace ++ [LifeEvent.created "sdf"] }

/-- `ThreeEngine.createDesertTankPlane`: constructs a `TSLPlaneDesertTank`
with width 4, height 3 inside try/catch and adds the mesh to the scene;
the constructor's `initControls` registers the `onDocumentKey` closure for
`keydown` and `keyup` on the document. -/
def createDesertTankPlane (s : EngineState) (fail : Bool) : EngineState :=
  if fail then
    { s with trace := s.trace ++ [LifeEvent.loggedError "desert-tank"] }
  else
    { s with
      tslDesertTank := some (TSLPlaneDesertTank.new (some 4) (some 3) none none)
      docListeners := s.docListeners ++ [("keydown", onDocumentKeyId), ("keyup", onDocumentKeyId)]
      trace := s.trace ++ [LifeEvent.created "desert-tank"] }

/-- `ThreeEngine.createRayMarchingPlane`: constructs a
`TSLPlaneRaymarching` with width 8, height 8 (no try/catch), adds the mesh
to the scene, calls `setupMouseInteraction` (which registers `pointermove`
and `pointerdown` closures on the renderer's DOM element), then overrides
`radius = 0.2`, `maxSteps = 25`, `surfaceDistance = 0.0001`,
`timeMultiplier = 0.5`. A construction error is uncaught here: `fail`
aborts the method with the exception propagating (`crashed`). -/
def createRayMarchingPlane (s : EngineState) (fail : Bool) : EngineState :=
  if fail then
    { s with crashed := true }
  else
    let plane := TSLPlaneRaymarching.new (some 8) (some 8) none none
    { s with
      raymarchPlane := some
        { plane with
          radius := 1/5
          maxSteps := 25
          surfaceDistance := 1/10000
          timeMultiplier := 1/2 }
      domListeners :=
        s.domListeners ++ [("pointermove", onPointerMoveId), ("pointerdown", onPointerDownId)]
      trace := s.trace ++ [LifeEvent.created "raymarching"] }

/-- `ThreeEngine.switchToPlane`, with a `fail` flag modelling whether the
new plane's construction throws: first `cleanupCurrentPlane`, then dispatch
on the requested plane type; the `default` branch warns about an unknown
type and returns before the active tag is updated; every other branch falls
through to `currentActivePlane = planeType` (for the raymarching branch
only when the uncaught construction exception did not abort the method). -/
def switchToPlaneF (s : EngineState) (planeType : String) (fail : Bool) : EngineState :=
  let s := cleanupCurrentPlane s
  if planeType = "wave" then
    { createWavePlane s fail with currentActivePlane := planeType }
  else if planeType = "sdf" then
    { createSDFPlane s fail with currentActivePlane := planeType }
  else if planeType = "desert-tank" then
    { createDesertTankPlane s fail with currentActivePlane := planeType }
  else if planeType = "raymarching" then
    if fail then createRayMarchingPlane s fail
    else { createRayMarchingPlane s fail with currentActivePlane := planeType }
  else if planeType = "none" then
    { s with currentActivePlane := planeType }
  else
    { s with trace := s.trace ++ [LifeEvent.warnedUnknown planeType] }

/-- `ThreeEngine.switchToPlane` in normal operation (construction does not
throw); `selectVariant` commands from the button panel arrive here via
`onPlaneChange`. -/
def switchToPlane (s : EngineState) (planeType : String) : EngineState :=
  switchToPlaneF s planeType false

/-- Run a sequence of `selectVariant` commands through the engine. -/
def runCommands (s : EngineState) (cmds : List String) : EngineState :=
  cmds.foldl switchToPlane s

/-- Number of plane slots currently holding live GPU resources. -/
def livePlanes (s : EngineState) : ℕ :=
  (if s.tslPlane.isSome then 1 else 0) +
  (if s.tslPlaneSDF.isSome then 1 else 0) +
  (if s.tslDesertTank.isSome then 1 else 0) +
  (if s.raymarchPlane.isSome then 1 else 0)

/-- `ThreeEngine.resize`: guarded by the renderer's existence; updates the
camera aspect, the renderer size, and the `uResolution` uniforms of the two
test shader materials when they exist. No plane slot is touched. -/
def resize (s : EngineState) (vw vh : ℚ) : EngineState :=
  if s.rendererReady = false then s
  else
    { s with
      cameraAspect := vw / vh
      rendererSize := ⟨vw, vh⟩
      shaderMaterial := s.shaderMaterial.map (fun m => { m with uResolution := ⟨vw, vh⟩ })
      shaderMaterialSimple :=
        s.shaderMaterialSimple.map (fun m => { m with uResolution := ⟨vw, vh⟩ }) }

/-- The GPU environment probed by `initThree`: whether `navigator.gpu`
exists, whether the `WebGPURenderer` constructor succeeds, whether
`canvas.getContext("webgl2")` returns a context, and whether the
`WebGLRenderer` constructor over that context succeeds. -/
structure GpuEnv where
  webgpuSupported : Bool
  webgpuCreateOk : Bool
  webgl2Supported : Bool
  webgl2CreateOk : Bool
deriving Repr, DecidableEq

/-- The renderer tiers of the fallback hierarchy. -/
inductive RendererTier where
  | webgpu
  | webgl2
  | webgl
deriving Repr, DecidableEq

/-- Result of `initThree`: the tier whose renderer was constructed and
kept, the ordered list of tiers whose construction was attempted, and
whether the trailing `renderer.setSize` / `renderer.setClearColor` calls
at the end of `initThree` were reached. -/
structure RendererInit where
  tier : RendererTier
  attempts : List RendererTier
  sizeAndClearSet : Bool
deriving Repr, DecidableEq

/-- `ThreeEngine.initThree` renderer negotiation, parameterized by the
`forceRenderer` field and the GPU environment. The `"webgpu"` branch tries
WebGPU, then WebGL2, then WebGL; each successful non-baseline construction
returns early, skipping the trailing `setSize`/`setClearColor`; the
baseline `WebGLRenderer` construction is unguarded and assumed to succeed.
The `"webgl2"` branch tries WebGL2 then WebGL; any other value goes
straight to WebGL. -/
def initThree (forceRenderer : String) (env : GpuEnv) : RendererInit :=
  if forceRenderer = "webgpu" then
    if env.webgpuSupported then
      if env.webgpuCreateOk then
        ⟨RendererTier.webgpu, [RendererTier.webgpu], false⟩
      else
        if env.webgl2Supported then
          if env.webgl2CreateOk then
            ⟨RendererTier.webgl2, [RendererTier.webgpu, RendererTier.webgl2], false⟩
          else
            ⟨RendererTier.webgl, [RendererTier.webgpu, RendererTier.webgl2, RendererTier.webgl],
              true⟩
        else
          ⟨RendererTier.webgl, [RendererTier.webgpu, RendererTier.webgl], true⟩
    else
      if env.webgl2Supported then
        if env.webgl2CreateOk then
          ⟨RendererTier.webgl2, [RendererTier.webgl2], false⟩
        else
          ⟨RendererTier.webgl, [RendererTier.webgl2, RendererTier.webgl], true⟩
      else
        ⟨RendererTier.webgl, [RendererTier.webgl], true⟩
  else if forceRenderer = "webgl2" then
    if env.webgl2Supported then
      if env.webgl2CreateOk then
        ⟨RendererTier.webgl2, [RendererTier.webgl2], false⟩
      else
        ⟨RendererTier.webgl, [RendererTier.webgl2, RendererTier.webgl], true⟩
    else
      ⟨RendererTier.webgl, [RendererTier.webgl], true⟩
  else
    ⟨RendererTier.webgl, [RendererTier.webgl], true⟩

/-- The `forceRenderer` value the engine is constructed with. -/
def engineForceRenderer : String := "webgpu"

/-- Whether a lifecycle event is a disposal. -/
def LifeEvent.isDisposed : LifeEvent → Bool
  | LifeEvent.disposed _ => true
  | _ => false

/-- Whether a lifecycle event is a creation. -/
def LifeEvent.isCreated : LifeEvent → Bool
  | LifeEvent.created _ => true
  | _ => false

/-- The events a single engine operation appended to the trace. -/
def traceDelta (before after : EngineState) : List LifeEvent :=
  after.trace.drop before.trace.length

/-- The disposal events `cleanupCurrentPlane` emits from a given state:
one per occupied slot, in source order. -/
def cleanupDelta (s : EngineState) : List LifeEvent :=
  (if s.tslPlane.isSome then [LifeEvent.disposed "wave"] else []) ++
  (if s.tslPlaneSDF.isSome then [LifeEvent.disposed "sdf"] else []) ++
  (if s.tslDesertTank.isSome then [LifeEvent.disposed "desert-tank"] else []) ++
  (if s.raymarchPlane.isSome then [LifeEvent.disposed "raymarching"] else [])

/-- Closed form of `cleanupCurrentPlane`: all four slots nulled, the
(ineffective) document-listener removal applied when the tank was live,
and the disposal events appended. -/
theorem cleanupCurrentPlane_eq (s : EngineState) :
    cleanupCurrentPlane s =
      { s with
        tslPlane := none
        tslPlaneSDF := none
        tslDesertTank := none
        raymarchPlane := none
        docListeners :=
          if s.tslDesertTank.isSome then
            removeEventListener (removeEventListener s.docListeners "keydown" initControlsMethodId)
              "keyup" initControlsMethodId
          else s.docListeners
        trace := s.trace ++ cleanupDelta s } := by
  obtain ⟨p1, p2, p3, p4, tag, doml, docl, rr, ca, rs, sm, sms, tr, cr⟩ := s
  cases p1 <;> cases p2 <;> cases p3 <;> cases p4 <;>
    simp [cleanupCurrentPlane, cleanupWave, cleanupSDF, cleanupTank, cleanupRaymarch, cleanupDelta]

/-- Every event `cleanupCurrentPlane` emits is a disposal. -/
theorem cleanupDelta_all_disposed (s : EngineState) :
    (cleanupDelta s).all LifeEvent.isDisposed = true := by
  unfold cleanupDelta
  split_ifs <;> simp [LifeEvent.isDisposed]

/-- After any single `switchToPlane` call, at most one slot is live. -/
theorem livePlanes_switchToPlane_le (s : EngineState) (t : String) :
    livePlanes (switchToPlane s t) ≤ 1 := by
  unfold switchToPlane switchToPlaneF
  rw [cleanupCurrentPlane_eq]
  split_ifs <;>
    simp [livePlanes, createWavePlane, createSDFPlane, createDesertTankPlane,
      createRayMarchingPlane]

/-- `livePlanes` stays at most one along any command sequence. -/
theorem livePlanes_runCommands_le (cmds : List String) (s : EngineState)
    (h : livePlanes s ≤ 1) : livePlanes (runCommands s cmds) ≤ 1 := by
  induction cmds generalizing s with
  | nil => exact h
  | cons t ts ih =>
      exact ih (switchToPlane s t) (livePlanes_switchToPlane_le s t)

/-- C6: from the initial state (active variant `"none"`), the first
`selectVariant(Raymarch)` command yields the raymarching variant as active,
with the construction-time defaults (radius 0.15, maxSteps 20,
timeMultiplier 1) overridden on activation to radius 0.2, maxSteps 25,
surfaceDistance 0.0001 and timeMultiplier 0.5. -/
theorem cold_start_raymarch_defaults :
    initState.currentActivePlane = "none" ∧
    (switchToPlane initState "raymarching").currentActivePlane = "raymarching" ∧
    ((switchToPlane initState "raymarching").raymarchPlane.map TSLPlaneRaymarching.radius)
      = some (1/5) ∧
    ((switchToPlane initState "raymarching").raymarchPlane.map TSLPlaneRaymarching.maxSteps)
      = some 25 ∧
    ((switchToPlane initState "raymarching").raymarchPlane.map
        TSLPlaneRaymarching.surfaceDistance) = some (1/10000) ∧
    ((switchToPlane initState "raymarching").raymarchPlane.map
        TSLPlaneRaymarching.timeMultiplier) = some (1/2) ∧
    (TSLPlaneRaymarching.new (some 8) (some 8) none none).radius = 3/20 ∧
    (TSLPlaneRaymarching.new (some 8) (some 8) none none).maxSteps = 20 ∧
    (TSLPlaneRaymarching.new (some 8) (some 8) none none).timeMultiplier = 1 := by
  simp [switchToPlane, switchToPlaneF, initState, cleanupCurrentPlane, cleanupWave, cleanupSDF,
    cleanupTank, cleanupRaymarch, createRayMarchingPlane, TSLPlaneRaymarching.new]

/-- C7 counterexample: after `selectVariant(SdfGallery)` the active SDF
plane's tunable uniforms do not hold the documented defaults — the claimed
radius 0.25 and fade 1.5 are both wrong (`createSDFPlane` overrides them). -/
theorem sdf_activation_defaults_cex :
    ((switchToPlane initState "sdf").tslPlaneSDF.map TSLPlaneSDF.radius) ≠ some (1/4) ∧
    ((switchToPlane initState "sdf").tslPlaneSDF.map TSLPlaneSDF.fade) ≠ some (3/2) := by
  constructor <;>
  · simp [switchToPlane, switchToPlaneF, initState, cleanupCurrentPlane, cleanupWave, cleanupSDF,
      cleanupTank, cleanupRaymarch, createSDFPlane, TSLPlaneSDF.new]
    norm_num

/-- C7 amended: after `selectVariant(SdfGallery)` the active scene has mesh
dimensions 8 by 4 with 64 by 32 segments, but its tunable uniforms hold the
activation-time overrides radius 0.3 and fade 2.0 (the constructor defaults
0.25 and 1.5 are overwritten by `createSDFPlane`). -/
theorem sdf_activation_state :
    ((switchToPlane initState "sdf").tslPlaneSDF.map TSLPlaneSDF.geometry)
      = some ⟨8, 4, 64, 32⟩ ∧
    ((switchToPlane initState "sdf").tslPlaneSDF.map TSLPlaneSDF.radius) = some (3/10) ∧
    ((switchToPlane initState "sdf").tslPlaneSDF.map TSLPlaneSDF.fade) = some 2 ∧
    (TSLPlaneSDF.new (some 8) (some 4) none none).radius = 1/4 ∧
    (TSLPlaneSDF.new (some 8) (some 4) none none).fade = 3/2 := by
  simp [switchToPlane, switchToPlaneF, initState, cleanupCurrentPlane, cleanupWave, cleanupSDF,
    cleanupTank, cleanupRaymarch, createSDFPlane, TSLPlaneSDF.new]

/-- C2 counterexample: the second of two consecutive
`selectVariant(Raymarch)` calls is not a no-op — it performs a teardown of
the live raymarching plane followed by a fresh construction, so additional
resource teardown and allocation do happen on the second call. -/
theorem repeat_select_not_noop_cex :
    traceDelta (switchToPlane initState "raymarching")
        (switchToPlane (switchToPlane initState "raymarching") "raymarching")
      = [LifeEvent.disposed "raymarching", LifeEvent.created "raymarching"] := by
  decide

/-- C3 counterexample: when construction of the SDF plane throws during a
switch from the wave variant, the lifecycle does not roll back to
`Idle(None)`: the active-variant tag is set to the requested variant
(`"sdf"`), not `"none"`, even though no plane is attached. -/
theorem construction_failure_no_rollback_cex :
    (switchToPlaneF (switchToPlane initState "wave") "sdf" true).currentActivePlane = "sdf" ∧
    (switchToPlaneF (switchToPlane initState "wave") "sdf" true).currentActivePlane ≠ "none" ∧
    (switchToPlaneF (switchToPlane initState "wave") "sdf" true).tslPlaneSDF = none ∧
    livePlanes (switchToPlaneF (switchToPlane initState "wave") "sdf" true) = 0 := by
  decide

/-- C4 counterexample: a variant-select command with the unknown tag
`"bogus"` issued while the wave variant is active does not leave the
lifecycle state unchanged — the wave plane is removed from the scene and
disposed (its slot is null and a disposal event was emitted), even though
the active-variant tag still reads `"wave"` and a warning was logged. -/
theorem unknown_tag_not_state_preserving_cex :
    (switchToPlane (switchToPlane initState "wave") "bogus").tslPlane = none ∧
    livePlanes (switchToPlane (switchToPlane initState "wave") "bogus") = 0 ∧
    (switchToPlane (switchToPlane initState "wave") "bogus").currentActivePlane = "wave" ∧
    traceDelta (switchToPlane initState "wave")
        (switchToPlane (switchToPlane initState "wave") "bogus")
      = [LifeEvent.disposed "wave", LifeEvent.warnedUnknown "bogus"] := by
  decide

/-- C9: evaluation at the failing input. After `selectVariant(Raymarch)`
followed by `selectVariant(None)` the raymarching plane has been disposed,
yet its `pointermove`/`pointerdown` registrations on the renderer's DOM
element are still present (its `dispose` never removes them); likewise
after `selectVariant(ParallaxVehicle)` then `selectVariant(None)` the
`keydown`/`keyup` registrations of the `onDocumentKey` closure are still on
the document, because `dispose` passes `this.initControls` — a function
that was never registered — to `removeEventListener`. The surviving
closures keep mutating the disposed planes on subsequent input events. -/
theorem listeners_survive_dispose :
    (runCommands initState ["raymarching", "none"]).raymarchPlane = none ∧
    (runCommands initState ["raymarching", "none"]).domListeners
      = [("pointermove", onPointerMoveId), ("pointerdown", onPointerDownId)] ∧
    (runCommands initState ["desert-tank", "none"]).tslDesertTank = none ∧
    (runCommands initState ["desert-tank", "none"]).docListeners
      = [("keydown", onDocumentKeyId), ("keyup", onDocumentKeyId)] := by
  decide

/-- C8 counterexample: `resize(800, 600)` while the desert-tank variant is
active leaves the variant's entire uniform state untouched — no uniform of
the variant is updated to the new resolution (wheelOffset stays (-10, 0),
bulletOffset 20, shellOffset 25; none equals 800 or 600), because
`ThreeEngine.resize` only touches the camera, the renderer and the two
disused test shader materials, and the desert-tank variant has no
resolution-dependent uniform at all. -/
theorem resize_tank_uniform_cex :
    (resize (switchToPlane initState "desert-tank") 800 600).tslDesertTank
      = (switchToPlane initState "desert-tank").tslDesertTank ∧
    (resize (switchToPlane initState "desert-tank") 800 600).tslDesertTank
      = some
          { geometry := ⟨4, 3, 64, 64⟩
            wheelOffset := ⟨-10, 0⟩
            bulletOffset := 20
            shellOffset := 25 } := by
  decide

/-- C1: after every sequence of `selectVariant` calls, at most one plane
slot holds live GPU resources; and within any single `switchToPlane` call
the teardown events (one disposal per live slot) strictly precede every
other emitted event — in particular every creation — because
`cleanupCurrentPlane` runs to completion before the new plane is built. -/
theorem exclusive_ownership_teardown_before_create :
    (∀ cmds : List String, livePlanes (runCommands initState cmds) ≤ 1) ∧
    (∀ s t, ∃ post,
        (switchToPlane s t).trace = s.trace ++ (cleanupDelta s ++ post) ∧
        (cleanupDelta s).all LifeEvent.isDisposed = true ∧
        post.all (fun e => !e.isDisposed) = true) := by
  constructor
  · intro cmds
    exact livePlanes_runCommands_le cmds initState (by decide)
  · intro s t
    by_cases h1 : t = "wave"
    · refine ⟨[LifeEvent.created "wave"], ?_, cleanupDelta_all_disposed s, by
        simp [LifeEvent.isDisposed]⟩
      simp [h1, switchToPlane, switchToPlaneF, cleanupCurrentPlane_eq, createWavePlane]
    by_cases h2 : t = "sdf"
    · refine ⟨[LifeEvent.created "sdf"], ?_, cleanupDelta_all_disposed s, by
        simp [LifeEvent.isDisposed]⟩
      simp [h1, h2, switchToPlane, switchToPlaneF, cleanupCurrentPlane_eq, createSDFPlane]
    by_cases h3 : t = "desert-tank"
    · refine ⟨[LifeEvent.created "desert-tank"], ?_, cleanupDelta_all_disposed s, by
        simp [LifeEvent.isDisposed]⟩
      simp [h1, h2, h3, switchToPlane, switchToPlaneF, cleanupCurrentPlane_eq,
        createDesertTankPlane]
    by_cases h4 : t = "raymarching"
    · refine ⟨[LifeEvent.created "raymarching"], ?_, cleanupDelta_all_disposed s, by
        simp [LifeEvent.isDisposed]⟩
      simp [h1, h2, h3, h4, switchToPlane, switchToPlaneF, cleanupCurrentPlane_eq,
        createRayMarchingPlane]
    by_cases h5 : t = "none"
    · refine ⟨[], ?_, cleanupDelta_all_disposed s, by simp⟩
      simp [h1, h2, h3, h4, h5, switchToPlane, switchToPlaneF, cleanupCurrentPlane_eq]
    · refine ⟨[LifeEvent.warnedUnknown t], ?_, cleanupDelta_all_disposed s, by
        simp [LifeEvent.isDisposed]⟩
      simp [h1, h2, h3, h4, h5, switchToPlane, switchToPlaneF, cleanupCurrentPlane_eq]

/-- C1 witness: the invariant and the per-switch event ordering at
concrete inputs. -/
theorem exclusive_ownership_teardown_before_create_witness :
    livePlanes (runCommands initState ["wave", "sdf", "raymarching", "none"]) ≤ 1 ∧
    (∃ post,
        (switchToPlane initState "wave").trace
          = initState.trace ++ (cleanupDelta initState ++ post) ∧
        (cleanupDelta initState).all LifeEvent.isDisposed = true ∧
        post.all (fun e => !e.isDisposed) = true) :=
  ⟨exclusive_ownership_teardown_before_create.1 ["wave", "sdf", "raymarching", "none"],
   exclusive_ownership_teardown_before_create.2 initState "wave"⟩

/-- C2 amended: calling `selectVariant(X)` twice in a row for a known
creating variant X produces the same active-variant tag and the same plane
slot values as calling it once, but the second call is not free: it
performs a full teardown of the live plane followed by a fresh
construction (exactly one disposal and one creation are emitted). -/
theorem repeat_select_same_state_extra_cycle (s : EngineState) (t : String)
    (h : t = "wave" ∨ t = "sdf" ∨ t = "desert-tank" ∨ t = "raymarching") :
    (switchToPlane (switchToPlane s t) t).currentActivePlane
      = (switchToPlane s t).currentActivePlane ∧
    (switchToPlane (switchToPlane s t) t).tslPlane = (switchToPlane s t).tslPlane ∧
    (switchToPlane (switchToPlane s t) t).tslPlaneSDF = (switchToPlane s t).tslPlaneSDF ∧
    (switchToPlane (switchToPlane s t) t).tslDesertTank = (switchToPlane s t).tslDesertTank ∧
    (switchToPlane (switchToPlane s t) t).raymarchPlane = (switchToPlane s t).raymarchPlane ∧
    (switchToPlane (switchToPlane s t) t).trace
      = (switchToPlane s t).trace ++ [LifeEvent.disposed t, LifeEvent.created t] := by
  rcases h with h | h | h | h <;> subst h <;>
    simp [switchToPlane, switchToPlaneF, cleanupCurrentPlane_eq, cleanupDelta, createWavePlane,
      createSDFPlane, createDesertTankPlane, createRayMarchingPlane]

/-- C2 witness: the amended statement at the raymarching variant from the
initial state. -/
theorem repeat_select_same_state_extra_cycle_witness :
    ("raymarching" = "wave" ∨ "raymarching" = "sdf" ∨ "raymarching" = "desert-tank" ∨
      "raymarching" = "raymarching") ∧
    ((switchToPlane (switchToPlane initState "raymarching") "raymarching").currentActivePlane
        = (switchToPlane initState "raymarching").currentActivePlane ∧
      (switchToPlane (switchToPlane initState "raymarching") "raymarching").tslPlane
        = (switchToPlane initState "raymarching").tslPlane ∧
      (switchToPlane (switchToPlane initState "raymarching") "raymarching").tslPlaneSDF
        = (switchToPlane initState "raymarching").tslPlaneSDF ∧
      (switchToPlane (switchToPlane initState "raymarching") "raymarching").tslDesertTank
        = (switchToPlane initState "raymarching").tslDesertTank ∧
      (switchToPlane (switchToPlane initState "raymarching") "raymarching").raymarchPlane
        = (switchToPlane initState "raymarching").raymarchPlane ∧
      (switchToPlane (switchToPlane initState "raymarching") "raymarching").trace
        = (switchToPlane initState "raymarching").trace
            ++ [LifeEvent.disposed "raymarching", LifeEvent.created "raymarching"]) :=
  ⟨Or.inr (Or.inr (Or.inr rfl)),
   repeat_select_same_state_extra_cycle initState "raymarching" (Or.inr (Or.inr (Or.inr rfl)))⟩

/-- C3 amended: when construction of the new plane throws, no partially
attached mesh remains (zero live planes) and — for the wave, SDF and
desert-tank variants — the error is caught and logged rather than
crashing; but the lifecycle does not roll back to `Idle(None)`: the
active-variant tag is set to the requested variant. For the raymarching
variant the construction is not wrapped in try/catch, so the exception
propagates out of `switchToPlane` after the old scene was already torn
down, with the tag left unchanged. -/
theorem construction_failure_behavior :
    (∀ s t, (t = "wave" ∨ t = "sdf" ∨ t = "desert-tank") →
      livePlanes (switchToPlaneF s t true) = 0 ∧
      (switchToPlaneF s t true).currentActivePlane = t ∧
      (switchToPlaneF s t true).crashed = s.crashed ∧
      (switchToPlaneF s t true).trace
        = s.trace ++ (cleanupDelta s ++ [LifeEvent.loggedError t])) ∧
    (∀ s, switchToPlaneF s "raymarching" true
        = { cleanupCurrentPlane s with crashed := true }) := by
  constructor
  · intro s t h
    rcases h with h | h | h <;> subst h <;>
      simp [switchToPlaneF, cleanupCurrentPlane_eq, livePlanes, createWavePlane,
        createSDFPlane, createDesertTankPlane]
  · intro s
    simp [switchToPlaneF, createRayMarchingPlane]

/-- C3 witness: the failing-construction behavior at concrete inputs. -/
theorem construction_failure_behavior_witness :
    ("sdf" = "wave" ∨ "sdf" = "sdf" ∨ "sdf" = "desert-tank") ∧
    (livePlanes (switchToPlaneF initState "sdf" true) = 0 ∧
      (switchToPlaneF initState "sdf" true).currentActivePlane = "sdf" ∧
      (switchToPlaneF initState "sdf" true).crashed = initState.crashed ∧
      (switchToPlaneF initState "sdf" true).trace
        = initState.trace ++ (cleanupDelta initState ++ [LifeEvent.loggedError "sdf"])) ∧
    switchToPlaneF initState "raymarching" true
      = { cleanupCurrentPlane initState with crashed := true } :=
  ⟨Or.inr (Or.inl rfl),
   construction_failure_behavior.1 initState "sdf" (Or.inr (Or.inl rfl)),
   construction_failure_behavior.2 initState⟩

/-- C4 amended: a variant-select command with an unknown tag logs a
warning and leaves the active-variant tag unmodified, but it does not
leave the lifecycle state unchanged: `cleanupCurrentPlane` runs before the
tag dispatch, so the currently active scene is removed from the render
graph and its GPU resources disposed, leaving zero live planes behind a
stale tag. -/
theorem unknown_tag_behavior (s : EngineState) (t : String)
    (h1 : t ≠ "wave") (h2 : t ≠ "sdf") (h3 : t ≠ "desert-tank") (h4 : t ≠ "raymarching")
    (h5 : t ≠ "none") :
    (switchToPlane s t).currentActivePlane = s.currentActivePlane ∧
    livePlanes (switchToPlane s t) = 0 ∧
    (switchToPlane s t).trace = s.trace ++ (cleanupDelta s ++ [LifeEvent.warnedUnknown t]) := by
  simp [switchToPlane, switchToPlaneF, h1, h2, h3, h4, h5, cleanupCurrentPlane_eq, livePlanes]

/-- C4 witness: the unknown-tag behavior with the wave variant active and
the tag `"bogus"`. -/
theorem unknown_tag_behavior_witness :
    ("bogus" ≠ "wave" ∧ "bogus" ≠ "sdf" ∧ "bogus" ≠ "desert-tank" ∧ "bogus" ≠ "raymarching" ∧
      "bogus" ≠ "none") ∧
    ((switchToPlane (switchToPlane initState "wave") "bogus").currentActivePlane
        = (switchToPlane initState "wave").currentActivePlane ∧
      livePlanes (switchToPlane (switchToPlane initState "wave") "bogus") = 0 ∧
      (switchToPlane (switchToPlane initState "wave") "bogus").trace
        = (switchToPlane initState "wave").trace
            ++ (cleanupDelta (switchToPlane initState "wave")
                ++ [LifeEvent.warnedUnknown "bogus"])) :=
  ⟨⟨by decide, by decide, by decide, by decide, by decide⟩,
   unknown_tag_behavior (switchToPlane initState "wave") "bogus" (by decide) (by decide)
     (by decide) (by decide) (by decide)⟩

/-- C5: with the engine's forced `"webgpu"` setting, `initThree` attempts
the tiers in the fixed order WebGPU, WebGL2, WebGL — each at most once and
never backwards (the attempt list is a sublist of that order) — and
whenever the preferred tier is unavailable or fails while the secondary
tier is available and succeeds, the negotiated renderer is the WebGL2
tier, never WebGL and never WebGPU. -/
theorem backend_negotiation_tier_order (env : GpuEnv) :
    List.Sublist (initThree engineForceRenderer env).attempts
      [RendererTier.webgpu, RendererTier.webgl2, RendererTier.webgl] ∧
    ((env.webgpuSupported = false ∨ env.webgpuCreateOk = false) →
      env.webgl2Supported = true → env.webgl2CreateOk = true →
      (initThree engineForceRenderer env).tier = RendererTier.webgl2) := by
  obtain ⟨a, b, c, d⟩ := env
  cases a <;> cases b <;> cases c <;> cases d <;> exact ⟨by decide, by decide⟩

/-- C5 witness: preferred tier unsupported, secondary available and
working — the negotiated tier is WebGL2 and the attempt order respected. -/
theorem backend_negotiation_tier_order_witness :
    List.Sublist (initThree engineForceRenderer ⟨false, false, true, true⟩).attempts
      [RendererTier.webgpu, RendererTier.webgl2, RendererTier.webgl] ∧
    (initThree engineForceRenderer ⟨false, false, true, true⟩).tier = RendererTier.webgl2 :=
  ⟨(backend_negotiation_tier_order ⟨false, false, true, true⟩).1,
   (backend_negotiation_tier_order ⟨false, false, true, true⟩).2 (Or.inl rfl) rfl rfl⟩

/-- C8 amended: `resize(vw, vh)` never touches the desert-tank variant's
uniform state — the variant has no resolution-dependent uniform, so
nothing of it (wheelOffset, bulletOffset, shellOffset included) changes —
while the camera aspect and renderer drawing-buffer size are updated
whenever the renderer exists. -/
theorem resize_preserves_tank_uniforms (s : EngineState) (vw vh : ℚ) :
    (resize s vw vh).tslDesertTank = s.tslDesertTank ∧
    (s.rendererReady = true →
      (resize s vw vh).cameraAspect = vw / vh ∧
      (resize s vw vh).rendererSize = ⟨vw, vh⟩) := by
  cases h : s.rendererReady <;> simp [resize, h]

/-- C8 witness: `resize(800, 600)` with the desert-tank variant active. -/
theorem resize_preserves_tank_uniforms_witness :
    (switchToPlane initState "desert-tank").rendererReady = true ∧
    ((resize (switchToPlane initState "desert-tank") 800 600).tslDesertTank
        = (switchToPlane initState "desert-tank").tslDesertTank ∧
      ((switchToPlane initState "desert-tank").rendererReady = true →
        (resize (switchToPlane initState "desert-tank") 800 600).cameraAspect = 800 / 600 ∧
        (resize (switchToPlane initState "desert-tank") 800 600).rendererSize = ⟨800, 600⟩)) :=
  ⟨by decide, resize_preserves_tank_uniforms (switchToPlane initState "desert-tank") 800 600⟩

/-- C10: with the engine's forced `"webgpu"` setting, whenever negotiation
keeps the WebGPU or WebGL2 renderer, `initThree` returned early and the
trailing `renderer.setSize` / `renderer.setClearColor` calls were never
executed; those calls are reached exactly when the baseline WebGL fallback
was taken. -/
theorem early_return_skips_size_clear (env : GpuEnv) :
    ((initThree engineForceRenderer env).tier = RendererTier.webgpu ∨
        (initThree engineForceRenderer env).tier = RendererTier.webgl2 →
      (initThree engineForceRenderer env).sizeAndClearSet = false) ∧
    ((initThree engineForceRenderer env).sizeAndClearSet = true ↔
      (initThree engineForceRenderer env).tier = RendererTier.webgl) := by
  obtain ⟨a, b, c, d⟩ := env
  cases a <;> cases b <;> cases c <;> cases d <;> exact ⟨by decide, by decide⟩

/-- C10 witness: a WebGPU-capable environment — negotiation keeps the
preferred renderer and the trailing size/clear-color calls are skipped. -/
theorem early_return_skips_size_clear_witness :
    (initThree engineForceRenderer ⟨true, true, true, true⟩).tier = RendererTier.webgpu ∧
    (initThree engineForceRenderer ⟨true, true, true, true⟩).sizeAndClearSet = false :=
  ⟨by decide, (early_return_skips_size_clear ⟨true, true, true, true⟩).1 (Or.inl (by decide))⟩

end TSLLab
